import Mathlib

/-!
Verification development for the Forsee repository (backend/server.js,
src/context/DashboardContext.tsx, src/lib/firebase.ts).

The backend operates on parsed JSON values, so we model the JSON value
universe, JavaScript truthiness, and object-field access, then embed the
request handlers as Lean functions.
-/

namespace Forsee

/-- The universe of parsed JSON values (the result of `JSON.parse`).
Numbers are modelled exactly as rationals; the claim-relevant arithmetic
(`healthIndex ± k` on integral health indices) is exact in either model. -/
inductive Json where
  | null : Json
  | bool (b : Bool) : Json
  | num (q : Rat) : Json
  | str (s : String) : Json
  | arr (xs : List Json) : Json
  | obj (fields : List (String × Json)) : Json
deriving Repr

/-- JavaScript truthiness of a JSON value: `null`, `false`, `0` and `""`
are falsy; every other JSON value (including `[]` and `{}`) is truthy. -/
def Json.truthy : Json → Bool
  | .null => false
  | .bool b => b
  | .num q => !(q == 0)
  | .str s => !(s == "")
  | .arr _ => true
  | .obj _ => true

/-- Property access `o[k]` on a JavaScript object represented as an
association list; `none` models `undefined`. -/
def lookupField (fields : List (String × Json)) (k : String) : Option Json :=
  match fields with
  | [] => none
  | (k₁, v) :: rest => if k₁ = k then some v else lookupField rest k

/-- The effect of `{...o, k: v}` on the association list of `o`: the key
keeps its original position if present, otherwise it is appended. -/
def setField (fields : List (String × Json)) (k : String) (v : Json) :
    List (String × Json) :=
  match fields with
  | [] => [(k, v)]
  | (k₁, v₁) :: rest =>
      if k₁ = k then (k₁, v) :: rest else (k₁, v₁) :: setField rest k v

theorem lookupField_setField_same (fields : List (String × Json))
    (k : String) (v : Json) : lookupField (setField fields k v) k = some v := by
  induction fields with
  | nil => simp [setField, lookupField]
  | cons hd tl ih =>
      obtain ⟨k₁, v₁⟩ := hd
      by_cases h : k₁ = k <;> simp [setField, lookupField, h, ih]

theorem lookupField_setField_other (fields : List (String × Json))
    (k k' : String) (v : Json) (hne : k' ≠ k) :
    lookupField (setField fields k v) k' = lookupField fields k' := by
  induction fields with
  | nil => simp [setField, lookupField, Ne.symm hne]
  | cons hd tl ih =>
      obtain ⟨k₁, v₁⟩ := hd
      by_cases h : k₁ = k
      · subst h
        simp [setField, lookupField, Ne.symm hne]
      · by_cases h' : k₁ = k' <;> simp [setField, lookupField, h, h', hne, ih]

/-- Does the second list start with the first (needle, haystack)? -/
def listStarts : List Char → List Char → Bool
  | [], _ => true
  | _ :: _, [] => false
  | a :: as, b :: bs => a == b && listStarts as bs

/-- Does the haystack contain the needle as a contiguous run? -/
def listHas (needle : List Char) : List Char → Bool
  | [] => listStarts needle []
  | b :: bs => listStarts needle (b :: bs) || listHas needle bs

/-- JavaScript `hay.includes(needle)` on strings. -/
def strHas (hay needle : String) : Bool :=
  listHas needle.toList hay.toList

/-- Replace every non-overlapping occurrence of a nonempty needle by
nothing, scanning left to right: JS `text.replace(/needle/g, '')`.
Fuelled by the haystack length, which bounds the number of steps. -/
def replaceAllAux (needle : List Char) : Nat → List Char → List Char
  | 0, hay => hay
  | _ + 1, [] => []
  | fuel + 1, c :: rest =>
      if !needle.isEmpty && listStarts needle (c :: rest) then
        replaceAllAux needle fuel ((c :: rest).drop needle.length)
      else
        c :: replaceAllAux needle fuel rest

def replaceAll (needle hay : List Char) : List Char :=
  replaceAllAux needle hay.length hay

/-- The whitespace class removed by JS `String.prototype.trim`
(restricted to its ASCII members; no claim involves exotic spaces). -/
def isTrimWs (c : Char) : Bool :=
  c == ' ' || c == '\t' || c == '\n' || c == '\r' || c == '\x0b' || c == '\x0c'

def trimChars (l : List Char) : List Char :=
  ((l.dropWhile isTrimWs).reverse.dropWhile isTrimWs).reverse

end Forsee

namespace Forsee.Server

/-!
Embedding of backend/server.js.
-/

/-- One point of the synthesized long-term projection:
`{ cycle: c, health: h }`. -/
def projPoint (c h : Rat) : Json :=
  .obj [("cycle", .num c), ("health", .num h)]

/-- JavaScript `prediction.healthIndex + d` as it appears in the
longTermProjection default.  For a numeric `healthIndex` this is exact
rational addition.  A missing or non-numeric `healthIndex` makes JS
produce `NaN` (or a coerced string); no claim exercises that corner and
`res.json` renders `NaN` as `null`, which is how it is modelled here. -/
def healthPlus (hv : Option Json) (d : Rat) : Json :=
  match hv with
  | some (.num h) => .num (h + d)
  | _ => .null

/-- The synthesized `longTermProjection` default (server.js lines 83–89):
five points at cycles 0,25,50,75,100 with health
100, healthIndex+5, healthIndex, healthIndex−10, healthIndex−20. -/
def projectionDefault (p : List (String × Json)) : Json :=
  .arr [ projPoint 0 100,
         .obj [("cycle", .num 25), ("health", healthPlus (lookupField p "healthIndex") 5)],
         .obj [("cycle", .num 50), ("health", healthPlus (lookupField p "healthIndex") 0)],
         .obj [("cycle", .num 75), ("health", healthPlus (lookupField p "healthIndex") (-10))],
         .obj [("cycle", .num 100), ("health", healthPlus (lookupField p "healthIndex") (-20))] ]

/-- The fixed `simulation` default (server.js lines 90–93). -/
def simulationDefault : Json :=
  .obj [ ("maintenanceNow",
           .obj [("riskReduction", .num 85), ("healthImprovement", .num 15), ("cost", .num 4500)]),
         ("maintenanceLater",
           .obj [("riskReduction", .num 10), ("healthImprovement", .num 2), ("cost", .num 28000)]) ]

/-- The `failureCluster` default (server.js line 94):
`{ id: "CL-GEN", label: prediction.failureMode, description: "AI Detected Pattern" }`.
A missing `failureMode` makes `label` the JS value `undefined`, which
`JSON.stringify` omits from the object; hence the optional binding. -/
def clusterDefault (p : List (String × Json)) : Json :=
  .obj ([("id", .str "CL-GEN")]
        ++ (match lookupField p "failureMode" with
            | some v => [("label", v)]
            | none => [])
        ++ [("description", .str "AI Detected Pattern")])

/-- The `dataDrift` default (server.js line 95):
`{ detected: prediction.driftDetected, severity: "Medium", explanation: "AI analysis of input distribution." }`. -/
def driftDefault (p : List (String × Json)) : Json :=
  .obj ((match lookupField p "driftDetected" with
         | some v => [("detected", v)]
         | none => [])
        ++ [("severity", .str "Medium"),
            ("explanation", .str "AI analysis of input distribution.")])

/-- JavaScript `x || d` on an optional object field: the field value when
it is present and truthy, otherwise the default. -/
def orDefault (x : Option Json) (d : Json) : Json :=
  match x with
  | some v => if v.truthy then v else d
  | none => d

/-- `enhancedPrediction` (server.js lines 80–96): spread the parsed
prediction object and set the four optional structured fields, each
defaulted with `||` when absent or falsy. -/
def enhancedPrediction (p : List (String × Json)) : List (String × Json) :=
  let s₁ := setField p "longTermProjection"
              (orDefault (lookupField p "longTermProjection") (projectionDefault p))
  let s₂ := setField s₁ "simulation"
              (orDefault (lookupField p "simulation") simulationDefault)
  let s₃ := setField s₂ "failureCluster"
              (orDefault (lookupField p "failureCluster") (clusterDefault p))
  setField s₃ "dataDrift"
    (orDefault (lookupField p "dataDrift") (driftDefault p))

end Forsee.Server

namespace Forsee

/-!
A JSON parser over character lists, modelling the external JS builtin
`JSON.parse` on the ECMA-404 grammar (the repository calls it at
server.js line 74).  Numbers are read exactly into `Rat` rather than
rounded to binary floating point, and a `\uXXXX` escape is read as the
scalar value directly (surrogate pairs are not recombined); neither
corner is exercised by any claim.
-/

/-- JSON insignificant whitespace. -/
def isJsonWs (c : Char) : Bool :=
  c == ' ' || c == '\t' || c == '\n' || c == '\r'

def skipWs (l : List Char) : List Char :=
  l.dropWhile isJsonWs

def stripPre (pre l : List Char) : Option (List Char) :=
  if listStarts pre l then some (l.drop pre.length) else none

/-- The value of one hexadecimal digit, written over code points. -/
def hexVal (c : Char) : Option Nat :=
  let n := c.toNat
  if 48 ≤ n ∧ n ≤ 57 then some (n - 48)
  else if 97 ≤ n ∧ n ≤ 102 then some (n - 87)
  else if 65 ≤ n ∧ n ≤ 70 then some (n - 55)
  else none

/-- The two-character string escapes of JSON (`\u` is handled apart). -/
def escMap : Char → Option Char
  | '"' => some '"'
  | '\\' => some '\\'
  | '/' => some '/'
  | 'b' => some (Char.ofNat 8)
  | 'f' => some (Char.ofNat 12)
  | 'n' => some (Char.ofNat 10)
  | 'r' => some (Char.ofNat 13)
  | 't' => some (Char.ofNat 9)
  | _ => none

/-- Parse the body of a JSON string after the opening quote; returns the
decoded string and the remainder after the closing quote. -/
def parseStrAux : Nat → List Char → List Char → Option (String × List Char)
  | 0, _, _ => none
  | _ + 1, [], _ => none
  | fuel + 1, c :: rest, acc =>
      if c == '"' then some (String.mk acc.reverse, rest)
      else if c == '\\' then
        match rest with
        | [] => none
        | e :: rest₁ =>
            if e == 'u' then
              match rest₁ with
              | h₁ :: h₂ :: h₃ :: h₄ :: rest₂ =>
                  match hexVal h₁, hexVal h₂, hexVal h₃, hexVal h₄ with
                  | some a, some b, some c₁, some d =>
                      parseStrAux fuel rest₂ (Char.ofNat (((a * 16 + b) * 16 + c₁) * 16 + d) :: acc)
                  | _, _, _, _ => none
              | _ => none
            else
              match escMap e with
              | some c₁ => parseStrAux fuel rest₁ (c₁ :: acc)
              | none => none
      else if c.toNat < 32 then none
      else parseStrAux fuel rest (c :: acc)

def digitsToNat (ds : List Char) : Nat :=
  ds.foldl (fun a c => a * 10 + (c.toNat - 48)) 0

/-- Parse an optional JSON fraction part. -/
def parseFrac : List Char → Option (Rat × List Char)
  | '.' :: rest =>
      let fs := rest.takeWhile Char.isDigit
      if fs.isEmpty then none
      else some ((digitsToNat fs : Rat) / (10 : Rat) ^ fs.length, rest.drop fs.length)
  | l => some (0, l)

/-- Parse an optional JSON exponent part, as a scale factor. -/
def parseExp : List Char → Option (Rat × List Char)
  | [] => some (1, [])
  | c :: rest =>
      if c == 'e' || c == 'E' then
        let (negE, r₁) : Bool × List Char :=
          match rest with
          | '+' :: r => (false, r)
          | '-' :: r => (true, r)
          | r => (false, r)
        let es := r₁.takeWhile Char.isDigit
        if es.isEmpty then none
        else
          let e := digitsToNat es
          some (if negE then 1 / (10 : Rat) ^ e else (10 : Rat) ^ e, r₁.drop es.length)
      else some (1, c :: rest)

/-- Parse a JSON number (sign, integer part without leading zeros,
optional fraction, optional exponent). -/
def parseNum (l : List Char) : Option (Json × List Char) :=
  let (neg, l₁) : Bool × List Char :=
    match l with
    | '-' :: rest => (true, rest)
    | _ => (false, l)
  let ds := l₁.takeWhile Char.isDigit
  if ds.isEmpty then none
  else if decide (1 < ds.length) && ds.headD '0' == '0' then none
  else
    match parseFrac (l₁.drop ds.length) with
    | none => none
    | some (fr, l₂) =>
        match parseExp l₂ with
        | none => none
        | some (sc, l₃) =>
            let mag : Rat := ((digitsToNat ds : Rat) + fr) * sc
            some (.num (if neg then -mag else mag), l₃)

mutual

/-- Parse one JSON value (leading whitespace allowed). -/
def parseVal : Nat → List Char → Option (Json × List Char)
  | 0, _ => none
  | fuel + 1, l =>
      match skipWs l with
      | [] => none
      | c :: rest =>
          if c == '{' then
            match skipWs rest with
            | '}' :: r => some (.obj [], r)
            | r => parseObjItems fuel r []
          else if c == '[' then
            match skipWs rest with
            | ']' :: r => some (.arr [], r)
            | r => parseArrItems fuel r []
          else if c == '"' then
            match parseStrAux fuel rest [] with
            | some (s, r) => some (.str s, r)
            | none => none
          else if c == 'n' then
            match stripPre ['u', 'l', 'l'] rest with
            | some r => some (.null, r)
            | none => none
          else if c == 't' then
            match stripPre ['r', 'u', 'e'] rest with
            | some r => some (.bool true, r)
            | none => none
          else if c == 'f' then
            match stripPre ['a', 'l', 's', 'e'] rest with
            | some r => some (.bool false, r)
            | none => none
          else if c == '-' || c.isDigit then parseNum (c :: rest)
          else none

/-- Parse the members of a nonempty JSON array, accumulated in reverse. -/
def parseArrItems : Nat → List Char → List Json → Option (Json × List Char)
  | 0, _, _ => none
  | fuel + 1, l, acc =>
      match parseVal fuel l with
      | some (v, r₁) =>
          match skipWs r₁ with
          | ',' :: r₂ => parseArrItems fuel r₂ (v :: acc)
          | ']' :: r₂ => some (.arr (v :: acc).reverse, r₂)
          | _ => none
      | none => none

/-- Parse the members of a nonempty JSON object.  A duplicated key keeps
its first position with its last value, as JS object building does. -/
def parseObjItems : Nat → List Char → List (String × Json) → Option (Json × List Char)
  | 0, _, _ => none
  | fuel + 1, l, acc =>
      match skipWs l with
      | '"' :: rest =>
          match parseStrAux fuel rest [] with
          | some (k, r₁) =>
              match skipWs r₁ with
              | ':' :: r₂ =>
                  match parseVal fuel r₂ with
                  | some (v, r₃) =>
                      match skipWs r₃ with
                      | ',' :: r₄ => parseObjItems fuel r₄ (setField acc k v)
                      | '}' :: r₄ => some (.obj (setField acc k v), r₄)
                      | _ => none
                  | none => none
              | _ => none
          | none => none
      | _ => none

end

/-- `JSON.parse`: parse one value and require only whitespace after it. -/
def jsonParse (t : List Char) : Option Json :=
  match parseVal (2 * t.length + 4) t with
  | some (v, rest) => if (skipWs rest).isEmpty then some v else none
  | none => none

end Forsee

namespace Forsee.Server

/-- The markdown cleanup of the model text (server.js line 72):
`text.replace(/```json/g, '').replace(/```/g, '').trim()`. -/
def cleanText (t : List Char) : List Char :=
  trimChars (replaceAll ['`', '`', '`'] (replaceAll ['`', '`', '`', 'j', 's', 'o', 'n'] t))

/-- An error thrown in a handler; `message` is `none` when the thrown
value has no `message` property. -/
structure JsError where
  message : Option String

/-- A response sent on the predict route: `res.json(body)` on success, or
`res.status(status).json({error, details, fallback})` on failure. -/
inductive PredictResponse where
  | ok (body : List (String × Json)) : PredictResponse
  | err (status : Nat) (error : String) (details : Option String)
        (fallback : List (String × Json)) : PredictResponse
deriving Repr

/-- The fixed fallback object of the predict error envelope
(server.js lines 106–110). -/
def fallbackObj : List (String × Json) :=
  [("healthIndex", .num 50),
   ("riskLevel", .str "MEDIUM"),
   ("action", .str "System Error - Check Backend Logs")]

/-- JS object spread `{...v}` of an arbitrary value as an association
list: objects keep their fields, arrays and strings spread to indexed
entries, primitives spread to nothing. -/
def spreadFields : Json → List (String × Json)
  | .obj p => p
  | .arr xs => (xs.enum).map (fun e => (toString e.1, e.2))
  | .str s => (s.toList.enum).map (fun e => (toString e.1, Json.str (String.mk [e.2])))
  | _ => []

/-- The message of the `SyntaxError` raised by `JSON.parse` on invalid
input; its exact text comes from the JS engine and is modelled as a fixed
string (theorems about the envelope existentially quantify the details). -/
def parseErrorDetails : String :=
  "Unexpected token in JSON"

/-- The message of the `TypeError` raised when the reply text parses to
the JSON value `null`: server.js line 83 reads
`prediction.longTermProjection` on it, which throws before any property
of the object literal is built.  Its exact text is engine-supplied and
modelled as a fixed string. -/
def nullReadDetails : String :=
  "Cannot read properties of null"

/-- The predict route's handling of a received model reply text
(server.js lines 69–112): clean the markdown, `JSON.parse` the result,
build `enhancedPrediction` and send it.  A parse failure, or a reply that
parses to `null` (whose property read at line 83 throws a `TypeError`),
reaches the catch block, which sends the 500 envelope with the fixed
fallback object; every other parse result (object, array, string, number,
boolean) supports the property reads and yields a success response. -/
def predictRespond (modelText : List Char) : PredictResponse :=
  match jsonParse (cleanText modelText) with
  | some .null => .err 500 "Failed to generate prediction" (some nullReadDetails) fallbackObj
  | some j => .ok (enhancedPrediction (spreadFields j))
  | none => .err 500 "Failed to generate prediction" (some parseErrorDetails) fallbackObj

/-- The whole predict route (server.js lines 54–113), with the outbound
model call abstracted as its outcome: a thrown provider/network error
also reaches the catch block and yields the same envelope shape, with the
thrown error's message as details. -/
def predictHandler (modelReply : Except JsError (List Char)) : PredictResponse :=
  match modelReply with
  | .error e => .err 500 "Failed to generate prediction" e.message fallbackObj
  | .ok text => predictRespond text

/-- One prior turn of the chat history; the handler never inspects it,
it is replayed verbatim into the model session. -/
structure ChatTurn where
  role : String
  text : String

/-- A response sent on the chat route. -/
inductive ChatResponse where
  | ok (response : String) : ChatResponse
  | err (status : Nat) (error : String) (details : Option String) : ChatResponse
deriving Repr

/-- The chat catch block's error classification (server.js lines 169–176):
`error.message?.includes('API key')` wins, then `'SAFETY'`, else the
generic message; an absent message hits neither branch. -/
def classifyChatMessage (m : Option String) : String :=
  match m with
  | some s =>
      if strHas s "API key" then "Invalid API Key"
      else if strHas s "SAFETY" then "Response blocked by safety filters"
      else "Failed to process chat message"
  | none => "Failed to process chat message"

/-- The chat route (server.js lines 145–180), with the model session
abstracted as a send function from the replayed history and the new
message to the model's text or a thrown error: `history || []` starts a
fresh conversation when history is undefined/null. -/
def chatHandler (send : List ChatTurn → String → Except JsError String)
    (message : String) (history : Option (List ChatTurn)) : ChatResponse :=
  match send (match history with | some h => h | none => []) message with
  | .ok text => .ok text
  | .error e => .err 500 (classifyChatMessage e.message) e.message

end Forsee.Server

namespace Forsee.Dashboard

/-!
Embedding of src/context/DashboardContext.tsx.
-/

/-- The lucide icons used by the dashboard. -/
inductive AssetIcon where
  | monitorIcon : AssetIcon
  | cpuIcon : AssetIcon
  | smartphoneIcon : AssetIcon
  | laptopIcon : AssetIcon
  | activityIcon : AssetIcon
deriving DecidableEq, Repr

structure Device where
  id : String
  name : String
  icon : AssetIcon
deriving DecidableEq, Repr

/-- The initial default devices (DashboardContext.tsx lines 12–17). -/
def defaultDevices : List Device :=
  [⟨"dev-01", "Turbine A-11", .monitorIcon⟩,
   ⟨"dev-02", "Gen. Control", .cpuIcon⟩,
   ⟨"dev-03", "Field Tablet", .smartphoneIcon⟩,
   ⟨"dev-04", "Engine Monitor", .laptopIcon⟩]

/-- JS `s.toLowerCase()` restricted to ASCII case mapping (the substring
needles below are all ASCII; JS's extra Unicode case foldings are outside
every claim). -/
def toLowerStr (s : String) : String :=
  String.mk (s.toList.map Char.toLower)

/-- `getIconForAssetType` (DashboardContext.tsx lines 103–110):
`type?.toLowerCase() || ''` then a first-match substring chain. -/
def getIconForAssetType (ty : Option String) : AssetIcon :=
  let lowerType := match ty with | some s => toLowerStr s | none => ""
  if strHas lowerType "turbine" then .monitorIcon
  else if strHas lowerType "control" then .cpuIcon
  else if strHas lowerType "tablet" || strHas lowerType "mobile" then .smartphoneIcon
  else if strHas lowerType "monitor" || strHas lowerType "computer" then .laptopIcon
  else .activityIcon

/-- An asset row returned by the backing store; `ty` is its free-text
`type` field, absent when the store omits it. -/
structure Asset where
  id : String
  name : String
  ty : Option String

/-- The per-asset mapping inside `fetchAssets` (lines 43–47). -/
def toDevice (a : Asset) : Device :=
  ⟨a.id, a.name, getIconForAssetType a.ty⟩

/-- JS truthiness of `localStorage.getItem('forsee_access_token')`:
`null` (absent) and the empty string are falsy. -/
def tokenPresent (token : Option String) : Bool :=
  match token with
  | some s => !(s == "")
  | none => false

/-- `fetchAssets` (DashboardContext.tsx lines 30–61) as the device list
it stores, with the HTTP call abstracted as its outcome: no token or a
failed/empty fetch falls back to the default list. -/
def fetchAssets (token : Option String) (fetched : Except Unit (List Asset)) :
    List Device :=
  if !(tokenPresent token) then defaultDevices
  else
    match fetched with
    | .error _ => defaultDevices
    | .ok assets =>
        let mappedDevices := assets.map toDevice
        if 0 < mappedDevices.length then mappedDevices else defaultDevices

/-- The argument of `addDevice`: a device without a server id yet, with
an optional icon (`newDevice.icon || Activity`). -/
structure NewDeviceInput where
  id : String
  name : String
  icon : Option AssetIcon

/-- `addDevice` (lines 63–84) as the resulting device list, with the
POST abstracted as its outcome: on success the returned asset is appended
(with the supplied icon or the Activity default); on failure the list is
unchanged. -/
def addDevice (posted : Except Unit Asset) (devices : List Device)
    (newDevice : NewDeviceInput) : List Device :=
  match posted with
  | .error _ => devices
  | .ok asset =>
      devices ++ [⟨asset.id, asset.name,
                   match newDevice.icon with | some i => i | none => .activityIcon⟩]

/-- `removeDevice` (lines 86–93) as the resulting device list, with the
DELETE abstracted as its outcome: on success the matching ids are
filtered out; on failure the list is unchanged. -/
def removeDevice (deleted : Except Unit Unit) (devices : List Device)
    (id : String) : List Device :=
  match deleted with
  | .error _ => devices
  | .ok _ => devices.filter (fun d => !(d.id == id))

end Forsee.Dashboard

namespace Forsee.Server

theorem lookupField_enhanced_ltp (p : List (String × Json)) :
    lookupField (enhancedPrediction p) "longTermProjection"
      = some (orDefault (lookupField p "longTermProjection") (projectionDefault p)) := by
  unfold enhancedPrediction
  rw [lookupField_setField_other _ _ _ _ (by decide),
      lookupField_setField_other _ _ _ _ (by decide),
      lookupField_setField_other _ _ _ _ (by decide),
      lookupField_setField_same]

theorem lookupField_enhanced_sim (p : List (String × Json)) :
    lookupField (enhancedPrediction p) "simulation"
      = some (orDefault (lookupField p "simulation") simulationDefault) := by
  unfold enhancedPrediction
  rw [lookupField_setField_other _ _ _ _ (by decide),
      lookupField_setField_other _ _ _ _ (by decide),
      lookupField_setField_same]

theorem lookupField_enhanced_fc (p : List (String × Json)) :
    lookupField (enhancedPrediction p) "failureCluster"
      = some (orDefault (lookupField p "failureCluster") (clusterDefault p)) := by
  unfold enhancedPrediction
  rw [lookupField_setField_other _ _ _ _ (by decide), lookupField_setField_same]

theorem lookupField_enhanced_dd (p : List (String × Json)) :
    lookupField (enhancedPrediction p) "dataDrift"
      = some (orDefault (lookupField p "dataDrift") (driftDefault p)) := by
  unfold enhancedPrediction
  rw [lookupField_setField_same]

theorem lookupField_enhanced_other (p : List (String × Json)) (k : String)
    (h₁ : k ≠ "longTermProjection") (h₂ : k ≠ "simulation")
    (h₃ : k ≠ "failureCluster") (h₄ : k ≠ "dataDrift") :
    lookupField (enhancedPrediction p) k = lookupField p k := by
  unfold enhancedPrediction
  rw [lookupField_setField_other _ _ _ _ h₄, lookupField_setField_other _ _ _ _ h₃,
      lookupField_setField_other _ _ _ _ h₂, lookupField_setField_other _ _ _ _ h₁]

/-- C1: for a syntactically valid model reply missing all four optional
fields (and carrying the numeric healthIndex, failureMode and
driftDetected the synthesized values draw on), the result contains
exactly the five-point projection at cycles 0,25,50,75,100 with health
100, healthIndex+5, healthIndex, healthIndex−10, healthIndex−20, the two
fixed simulation blocks, the CL-GEN failure cluster labelled by the
reply's failureMode, and the Medium-severity data-drift object carrying
the reply's driftDetected. -/
theorem predict_defaults_injected (p : List (String × Json)) (h : Rat) (fm dd : Json)
    (hltp : lookupField p "longTermProjection" = none)
    (hsim : lookupField p "simulation" = none)
    (hfc : lookupField p "failureCluster" = none)
    (hdd : lookupField p "dataDrift" = none)
    (hhi : lookupField p "healthIndex" = some (.num h))
    (hfm : lookupField p "failureMode" = some fm)
    (hdr : lookupField p "driftDetected" = some dd) :
    lookupField (enhancedPrediction p) "longTermProjection"
      = some (.arr [ .obj [("cycle", .num 0), ("health", .num 100)],
                     .obj [("cycle", .num 25), ("health", .num (h + 5))],
                     .obj [("cycle", .num 50), ("health", .num h)],
                     .obj [("cycle", .num 75), ("health", .num (h - 10))],
                     .obj [("cycle", .num 100), ("health", .num (h - 20))] ])
    ∧ lookupField (enhancedPrediction p) "simulation"
      = some (.obj [ ("maintenanceNow",
                       .obj [("riskReduction", .num 85), ("healthImprovement", .num 15),
                             ("cost", .num 4500)]),
                     ("maintenanceLater",
                       .obj [("riskReduction", .num 10), ("healthImprovement", .num 2),
                             ("cost", .num 28000)]) ])
    ∧ lookupField (enhancedPrediction p) "failureCluster"
      = some (.obj [("id", .str "CL-GEN"), ("label", fm),
                    ("description", .str "AI Detected Pattern")])
    ∧ lookupField (enhancedPrediction p) "dataDrift"
      = some (.obj [("detected", dd), ("severity", .str "Medium"),
                    ("explanation", .str "AI analysis of input distribution.")]) := by
  refine ⟨?_, ?_, ?_, ?_⟩
  · rw [lookupField_enhanced_ltp, hltp]
    simp [orDefault, projectionDefault, projPoint, healthPlus, hhi, sub_eq_add_neg]
  · rw [lookupField_enhanced_sim, hsim]
    simp [orDefault, simulationDefault]
  · rw [lookupField_enhanced_fc, hfc]
    simp [orDefault, clusterDefault, hfm]
  · rw [lookupField_enhanced_dd, hdd]
    simp [orDefault, driftDefault, hdr]

theorem predict_defaults_injected_witness :
    lookupField
        (enhancedPrediction
          [("healthIndex", .num 42), ("failureMode", .str "Bearing Wear"),
           ("driftDetected", .bool true)]) "longTermProjection"
      = some (.arr [ .obj [("cycle", .num 0), ("health", .num 100)],
                     .obj [("cycle", .num 25), ("health", .num ((42 : Rat) + 5))],
                     .obj [("cycle", .num 50), ("health", .num 42)],
                     .obj [("cycle", .num 75), ("health", .num ((42 : Rat) - 10))],
                     .obj [("cycle", .num 100), ("health", .num ((42 : Rat) - 20))] ])
    ∧ lookupField
        (enhancedPrediction
          [("healthIndex", .num 42), ("failureMode", .str "Bearing Wear"),
           ("driftDetected", .bool true)]) "simulation"
      = some (.obj [ ("maintenanceNow",
                       .obj [("riskReduction", .num 85), ("healthImprovement", .num 15),
                             ("cost", .num 4500)]),
                     ("maintenanceLater",
                       .obj [("riskReduction", .num 10), ("healthImprovement", .num 2),
                             ("cost", .num 28000)]) ])
    ∧ lookupField
        (enhancedPrediction
          [("healthIndex", .num 42), ("failureMode", .str "Bearing Wear"),
           ("driftDetected", .bool true)]) "failureCluster"
      = some (.obj [("id", .str "CL-GEN"), ("label", .str "Bearing Wear"),
                    ("description", .str "AI Detected Pattern")])
    ∧ lookupField
        (enhancedPrediction
          [("healthIndex", .num 42), ("failureMode", .str "Bearing Wear"),
           ("driftDetected", .bool true)]) "dataDrift"
      = some (.obj [("detected", .bool true), ("severity", .str "Medium"),
                    ("explanation", .str "AI analysis of input distribution.")]) :=
  predict_defaults_injected _ 42 (.str "Bearing Wear") (.bool true)
    rfl rfl rfl rfl rfl rfl rfl

end Forsee.Server

namespace Forsee.Server

/-- C4: when the four optional fields are missing and the reply's numeric
healthIndex is below 20, the synthesized longTermProjection contains the
unclamped point `{cycle:100, health: healthIndex−20}` whose health value
is negative, outside the documented 0–100 bound. -/
theorem projection_health_unclamped (p : List (String × Json)) (h : Rat)
    (hltp : lookupField p "longTermProjection" = none)
    (hhi : lookupField p "healthIndex" = some (.num h))
    (hlt : h < 20) :
    ∃ pts : List Json,
      lookupField (enhancedPrediction p) "longTermProjection" = some (.arr pts)
      ∧ Json.obj [("cycle", .num 100), ("health", .num (h - 20))] ∈ pts
      ∧ h - 20 < 0 := by
  refine ⟨[ .obj [("cycle", .num 0), ("health", .num 100)],
            .obj [("cycle", .num 25), ("health", .num (h + 5))],
            .obj [("cycle", .num 50), ("health", .num h)],
            .obj [("cycle", .num 75), ("health", .num (h - 10))],
            .obj [("cycle", .num 100), ("health", .num (h - 20))] ], ?_, ?_, by linarith⟩
  · rw [lookupField_enhanced_ltp, hltp]
    simp [orDefault, projectionDefault, projPoint, healthPlus, hhi, sub_eq_add_neg]
  · simp

theorem projection_health_unclamped_witness :
    ∃ pts : List Json,
      lookupField (enhancedPrediction [("healthIndex", .num 10)]) "longTermProjection"
        = some (.arr pts)
      ∧ Json.obj [("cycle", .num 100), ("health", .num ((10 : Rat) - 20))] ∈ pts
      ∧ (10 : Rat) - 20 < 0 :=
  projection_health_unclamped [("healthIndex", .num 10)] 10 rfl rfl (by norm_num)

/-- The concrete reply used to refute C2 as literally stated: all four
optional fields are present, but `dataDrift` holds the falsy value
`null`. -/
def replyWithNullDrift : List (String × Json) :=
  [("healthIndex", .num 80),
   ("longTermProjection", .arr [.obj [("cycle", .num 0), ("health", .num 100)]]),
   ("simulation", .obj [("maintenanceNow", .obj [])]),
   ("failureCluster", .obj [("id", .str "CL-7")]),
   ("dataDrift", .null)]

/-- C2 counterexample: a reply that includes all four optional fields is
not always passed through unmodified — a field present with the falsy
value `null` is overridden by the synthesized default. -/
theorem passthrough_counterexample :
    lookupField replyWithNullDrift "longTermProjection"
      = some (.arr [.obj [("cycle", .num 0), ("health", .num 100)]])
    ∧ lookupField replyWithNullDrift "simulation" = some (.obj [("maintenanceNow", .obj [])])
    ∧ lookupField replyWithNullDrift "failureCluster" = some (.obj [("id", .str "CL-7")])
    ∧ lookupField replyWithNullDrift "dataDrift" = some .null
    ∧ lookupField (enhancedPrediction replyWithNullDrift) "dataDrift" ≠ some .null := by
  refine ⟨rfl, rfl, rfl, rfl, ?_⟩
  rw [lookupField_enhanced_dd]
  simp [orDefault, driftDefault, replyWithNullDrift, lookupField, Json.truthy]

/-- C2 amended: for a model reply whose four optional fields are present
with truthy values, the gateway passes all four through unmodified, and
every other field of the reply appears in the result unchanged, with no
range clamping or enum checking. -/
theorem passthrough_truthy (p : List (String × Json)) (vl vs vf vd : Json)
    (hl : lookupField p "longTermProjection" = some vl) (tl : vl.truthy = true)
    (hs : lookupField p "simulation" = some vs) (ts : vs.truthy = true)
    (hf : lookupField p "failureCluster" = some vf) (tf : vf.truthy = true)
    (hd : lookupField p "dataDrift" = some vd) (td : vd.truthy = true) :
    lookupField (enhancedPrediction p) "longTermProjection" = some vl
    ∧ lookupField (enhancedPrediction p) "simulation" = some vs
    ∧ lookupField (enhancedPrediction p) "failureCluster" = some vf
    ∧ lookupField (enhancedPrediction p) "dataDrift" = some vd
    ∧ ∀ k, k ≠ "longTermProjection" → k ≠ "simulation" → k ≠ "failureCluster" →
        k ≠ "dataDrift" → lookupField (enhancedPrediction p) k = lookupField p k := by
  refine ⟨?_, ?_, ?_, ?_, fun k h₁ h₂ h₃ h₄ => lookupField_enhanced_other p k h₁ h₂ h₃ h₄⟩
  · rw [lookupField_enhanced_ltp, hl]
    simp [orDefault, tl]
  · rw [lookupField_enhanced_sim, hs]
    simp [orDefault, ts]
  · rw [lookupField_enhanced_fc, hf]
    simp [orDefault, tf]
  · rw [lookupField_enhanced_dd, hd]
    simp [orDefault, td]

/-- The concrete reply used to witness the amended C2: the four optional
fields are present with truthy values, next to an untouched out-of-range
`healthIndex` of 200. -/
def replyAllPresent : List (String × Json) :=
  [("healthIndex", .num 200),
   ("riskLevel", .str "SEVERE"),
   ("longTermProjection", .arr [.obj [("cycle", .num 0), ("health", .num 1)]]),
   ("simulation", .obj [("maintenanceNow", .obj [])]),
   ("failureCluster", .obj [("id", .str "CL-7")]),
   ("dataDrift", .obj [("detected", .bool false)])]

theorem passthrough_truthy_witness :
    lookupField (enhancedPrediction replyAllPresent) "longTermProjection"
      = some (.arr [.obj [("cycle", .num 0), ("health", .num 1)]])
    ∧ lookupField (enhancedPrediction replyAllPresent) "simulation"
      = some (.obj [("maintenanceNow", .obj [])])
    ∧ lookupField (enhancedPrediction replyAllPresent) "failureCluster"
      = some (.obj [("id", .str "CL-7")])
    ∧ lookupField (enhancedPrediction replyAllPresent) "dataDrift"
      = some (.obj [("detected", .bool false)])
    ∧ lookupField (enhancedPrediction replyAllPresent) "healthIndex" = some (.num 200)
    ∧ lookupField (enhancedPrediction replyAllPresent) "riskLevel" = some (.str "SEVERE") := by
  have h := passthrough_truthy replyAllPresent
    (.arr [.obj [("cycle", .num 0), ("health", .num 1)]])
    (.obj [("maintenanceNow", .obj [])]) (.obj [("id", .str "CL-7")])
    (.obj [("detected", .bool false)]) rfl rfl rfl rfl rfl rfl rfl rfl
  refine ⟨h.1, h.2.1, h.2.2.1, h.2.2.2.1, ?_, ?_⟩
  · rw [h.2.2.2.2 "healthIndex" (by decide) (by decide) (by decide) (by decide)]
    rfl
  · rw [h.2.2.2.2 "riskLevel" (by decide) (by decide) (by decide) (by decide)]
    rfl

end Forsee.Server

namespace Forsee.Server

/-- C9: the default-filling tests each of the four optional fields by JS
truthiness, not key presence — a field present with a falsy value is
replaced by the deterministic placeholder rather than passed through. -/
theorem falsy_field_replaced (p : List (String × Json)) (v : Json) :
    (lookupField p "longTermProjection" = some v → v.truthy = false →
      lookupField (enhancedPrediction p) "longTermProjection"
        = some (projectionDefault p) ∧ projectionDefault p ≠ v)
    ∧ (lookupField p "simulation" = some v → v.truthy = false →
      lookupField (enhancedPrediction p) "simulation"
        = some simulationDefault ∧ simulationDefault ≠ v)
    ∧ (lookupField p "failureCluster" = some v → v.truthy = false →
      lookupField (enhancedPrediction p) "failureCluster"
        = some (clusterDefault p) ∧ clusterDefault p ≠ v)
    ∧ (lookupField p "dataDrift" = some v → v.truthy = false →
      lookupField (enhancedPrediction p) "dataDrift"
        = some (driftDefault p) ∧ driftDefault p ≠ v) := by
  refine ⟨fun hv ht => ⟨?_, ?_⟩, fun hv ht => ⟨?_, ?_⟩,
          fun hv ht => ⟨?_, ?_⟩, fun hv ht => ⟨?_, ?_⟩⟩
  · rw [lookupField_enhanced_ltp, hv]
    simp [orDefault, ht]
  · cases v <;> simp_all [Json.truthy, projectionDefault]
  · rw [lookupField_enhanced_sim, hv]
    simp [orDefault, ht]
  · cases v <;> simp_all [Json.truthy, simulationDefault]
  · rw [lookupField_enhanced_fc, hv]
    simp [orDefault, ht]
  · cases v <;> simp_all [Json.truthy, clusterDefault]
  · rw [lookupField_enhanced_dd, hv]
    simp [orDefault, ht]
  · cases v <;> simp_all [Json.truthy, driftDefault]

theorem falsy_field_replaced_witness :
    lookupField (enhancedPrediction [("healthIndex", .num 80), ("simulation", .null)])
        "simulation" = some simulationDefault
    ∧ simulationDefault ≠ Json.null :=
  (falsy_field_replaced [("healthIndex", .num 80), ("simulation", .null)] .null).2.1
    rfl rfl

theorem predictRespond_ok_of_ne_null (u : List Char) (j : Json)
    (hu : jsonParse (cleanText u) = some j) (hnn : j ≠ .null) :
    predictRespond u = .ok (enhancedPrediction (spreadFields j)) := by
  unfold predictRespond
  rw [hu]
  cases j <;> simp_all

/-- C3: a model reply whose text is not valid JSON after stripping
code-fence markup yields the 500 envelope with the fixed fallback object
`{healthIndex:50, riskLevel:"MEDIUM", action:"System Error - Check
Backend Logs"}`; the fallback object is never substituted into a success
response — a reply parsing to anything but `null` yields a success body
whose `fallback` key, if any, comes verbatim from the reply, and a reply
parsing to `null` (whose property read throws) yields the error envelope
too, not a success response carrying the fallback. -/
theorem parse_failure_envelope (t : List Char)
    (hfail : jsonParse (cleanText t) = none) :
    (∃ d, predictHandler (.ok t)
        = .err 500 "Failed to generate prediction" d
            [("healthIndex", .num 50),
             ("riskLevel", .str "MEDIUM"),
             ("action", .str "System Error - Check Backend Logs")])
    ∧ (∀ u j, jsonParse (cleanText u) = some j → j ≠ .null →
        ∃ body, predictHandler (.ok u) = .ok body
          ∧ lookupField body "fallback" = lookupField (spreadFields j) "fallback")
    ∧ (∀ u, jsonParse (cleanText u) = some .null →
        ∃ d, predictHandler (.ok u)
          = .err 500 "Failed to generate prediction" d
              [("healthIndex", .num 50),
               ("riskLevel", .str "MEDIUM"),
               ("action", .str "System Error - Check Backend Logs")]) := by
  refine ⟨⟨some parseErrorDetails, ?_⟩, fun u j hu hnn => ?_, fun u hu => ?_⟩
  · simp [predictHandler, predictRespond, hfail, fallbackObj]
  · exact ⟨enhancedPrediction (spreadFields j),
      by simp [predictHandler, predictRespond_ok_of_ne_null u j hu hnn],
      lookupField_enhanced_other _ _ (by decide) (by decide) (by decide) (by decide)⟩
  · refine ⟨some nullReadDetails, ?_⟩
    simp [predictHandler, predictRespond, hu, fallbackObj]

theorem parse_failure_envelope_witness :
    (∃ d, predictHandler (.ok "I cannot analyze this.".toList)
        = .err 500 "Failed to generate prediction" d
            [("healthIndex", .num 50),
             ("riskLevel", .str "MEDIUM"),
             ("action", .str "System Error - Check Backend Logs")])
    ∧ (∀ u j, jsonParse (cleanText u) = some j → j ≠ .null →
        ∃ body, predictHandler (.ok u) = .ok body
          ∧ lookupField body "fallback" = lookupField (spreadFields j) "fallback")
    ∧ (∀ u, jsonParse (cleanText u) = some .null →
        ∃ d, predictHandler (.ok u)
          = .err 500 "Failed to generate prediction" d
              [("healthIndex", .num 50),
               ("riskLevel", .str "MEDIUM"),
               ("action", .str "System Error - Check Backend Logs")]) :=
  parse_failure_envelope "I cannot analyze this.".toList rfl

end Forsee.Server

namespace Forsee.Server

/-- C5: a failing chat call is classified by the thrown error's message —
one containing "API key" surfaces "Invalid API Key", else one containing
"SAFETY" surfaces "Response blocked by safety filters", else the generic
message — and in every case the response is a 500 carrying the raw error
message as details. -/
theorem chat_error_taxonomy (send : List ChatTurn → String → Except JsError String)
    (message : String) (history : Option (List ChatTurn)) (e : JsError)
    (hsend : send (match history with | some h => h | none => []) message = .error e) :
    (∀ s, e.message = some s → strHas s "API key" = true →
      chatHandler send message history = .err 500 "Invalid API Key" (some s))
    ∧ (∀ s, e.message = some s → strHas s "API key" = false → strHas s "SAFETY" = true →
      chatHandler send message history = .err 500 "Response blocked by safety filters" (some s))
    ∧ (∀ s, e.message = some s → strHas s "API key" = false → strHas s "SAFETY" = false →
      chatHandler send message history = .err 500 "Failed to process chat message" (some s))
    ∧ (e.message = none →
      chatHandler send message history = .err 500 "Failed to process chat message" none)
    ∧ ∃ msg, chatHandler send message history = .err 500 msg e.message := by
  refine ⟨fun s hs h₁ => ?_, fun s hs h₁ h₂ => ?_, fun s hs h₁ h₂ => ?_, fun hs => ?_, ?_⟩
  · simp [chatHandler, hsend, classifyChatMessage, hs, h₁]
  · simp [chatHandler, hsend, classifyChatMessage, hs, h₁, h₂]
  · simp [chatHandler, hsend, classifyChatMessage, hs, h₁, h₂]
  · simp [chatHandler, hsend, classifyChatMessage, hs]
  · exact ⟨classifyChatMessage e.message, by simp [chatHandler, hsend]⟩

theorem chat_error_taxonomy_witness :
    chatHandler (fun _ _ => .error ⟨some "API key not valid. Please pass a valid API key."⟩)
        "hello" none
      = .err 500 "Invalid API Key" (some "API key not valid. Please pass a valid API key.") :=
  (chat_error_taxonomy (fun _ _ => .error ⟨some "API key not valid. Please pass a valid API key."⟩)
      "hello" none ⟨some "API key not valid. Please pass a valid API key."⟩ rfl).1
    _ rfl (by decide)

/-- C6: a chat call with an empty or undefined history does not fail for
lack of history — both are treated as the same fresh conversation, and
the message is still dispatched to the model session: the handler's
response is exactly determined by `send [] message`, in particular a
successful model reply produces a success response. -/
theorem chat_fresh_history (send : List ChatTurn → String → Except JsError String)
    (message : String) :
    chatHandler send message none = chatHandler send message (some [])
    ∧ (∀ text, send [] message = .ok text → chatHandler send message none = .ok text)
    ∧ (∀ text, send [] message = .ok text →
        chatHandler send message (some []) = .ok text) := by
  refine ⟨rfl, fun text ht => ?_, fun text ht => ?_⟩ <;> simp [chatHandler, ht]

theorem chat_fresh_history_witness :
    chatHandler (fun _ m => .ok ("echo: " ++ m)) "hello" none = .ok "echo: hello" :=
  (chat_fresh_history (fun _ m => .ok ("echo: " ++ m)) "hello").2.1 _ rfl

end Forsee.Server

namespace Forsee.Dashboard

/-- C7: with no auth token in client-local storage, the devices list is
exactly the four fixed defaults "Turbine A-11", "Gen. Control",
"Field Tablet", "Engine Monitor", in that order, whatever the assets
fetch would have returned. -/
theorem no_token_default_devices (fetched : Except Unit (List Asset)) :
    fetchAssets none fetched = defaultDevices
    ∧ (fetchAssets none fetched).map Device.name
        = ["Turbine A-11", "Gen. Control", "Field Tablet", "Engine Monitor"] := by
  constructor <;> simp [fetchAssets, tokenPresent, defaultDevices]

/-- C8: an asset's icon is derived from its free-text type by
case-insensitive substring matching, in order: "turbine" → the monitor
icon, else "control" → the cpu icon, else "tablet"/"mobile" → the
smartphone icon, else "monitor"/"computer" → the laptop icon, else —
including a missing type — the generic activity icon. -/
theorem icon_by_substring (s : String) :
    (strHas (toLowerStr s) "turbine" = true → getIconForAssetType (some s) = .monitorIcon)
    ∧ (strHas (toLowerStr s) "turbine" = false → strHas (toLowerStr s) "control" = true →
        getIconForAssetType (some s) = .cpuIcon)
    ∧ (strHas (toLowerStr s) "turbine" = false → strHas (toLowerStr s) "control" = false →
        strHas (toLowerStr s) "tablet" || strHas (toLowerStr s) "mobile" = true →
        getIconForAssetType (some s) = .smartphoneIcon)
    ∧ (strHas (toLowerStr s) "turbine" = false → strHas (toLowerStr s) "control" = false →
        strHas (toLowerStr s) "tablet" = false → strHas (toLowerStr s) "mobile" = false →
        strHas (toLowerStr s) "monitor" || strHas (toLowerStr s) "computer" = true →
        getIconForAssetType (some s) = .laptopIcon)
    ∧ (strHas (toLowerStr s) "turbine" = false → strHas (toLowerStr s) "control" = false →
        strHas (toLowerStr s) "tablet" = false → strHas (toLowerStr s) "mobile" = false →
        strHas (toLowerStr s) "monitor" = false → strHas (toLowerStr s) "computer" = false →
        getIconForAssetType (some s) = .activityIcon)
    ∧ getIconForAssetType none = .activityIcon := by
  refine ⟨fun h₁ => ?_, fun h₁ h₂ => ?_, fun h₁ h₂ h₃ => ?_, fun h₁ h₂ h₃ h₄ h₅ => ?_,
          fun h₁ h₂ h₃ h₄ h₅ h₆ => ?_, ?_⟩ <;>
    simp_all [getIconForAssetType]
  decide

theorem icon_by_substring_witness :
    getIconForAssetType (some "Gas Turbine") = .monitorIcon
    ∧ getIconForAssetType (some "PLC Control Unit") = .cpuIcon
    ∧ getIconForAssetType (some "Rugged Tablet") = .smartphoneIcon
    ∧ getIconForAssetType (some "Vibration Monitor") = .laptopIcon
    ∧ getIconForAssetType (some "Hydraulic Pump") = .activityIcon :=
  ⟨(icon_by_substring "Gas Turbine").1 (by decide),
   (icon_by_substring "PLC Control Unit").2.1 (by decide) (by decide),
   (icon_by_substring "Rugged Tablet").2.2.1 (by decide) (by decide) (by decide),
   (icon_by_substring "Vibration Monitor").2.2.2.1 (by decide) (by decide) (by decide)
     (by decide) (by decide),
   (icon_by_substring "Hydraulic Pump").2.2.2.2.1 (by decide) (by decide) (by decide)
     (by decide) (by decide) (by decide)⟩

/-- C10: the device-list mutations are atomic with respect to the backend
round-trip — `removeDevice` filters the id out of the list exactly when
the DELETE succeeds and leaves the list unchanged on error, and
`addDevice` appends the posted asset exactly when the POST succeeds and
leaves the list unchanged on error. -/
theorem device_mutations_atomic (devices : List Device) (id : String)
    (asset : Asset) (newDevice : NewDeviceInput) :
    removeDevice (.error ()) devices id = devices
    ∧ removeDevice (.ok ()) devices id = devices.filter (fun d => !(d.id == id))
    ∧ (∀ d, d ∈ removeDevice (.ok ()) devices id → d.id ≠ id)
    ∧ addDevice (.error ()) devices newDevice = devices
    ∧ addDevice (.ok asset) devices newDevice
        = devices ++ [⟨asset.id, asset.name,
            match newDevice.icon with | some i => i | none => .activityIcon⟩] := by
  refine ⟨rfl, rfl, fun d hd => ?_, rfl, rfl⟩
  simp [removeDevice, List.mem_filter] at hd
  exact hd.2

end Forsee.Dashboard

namespace Forsee.Dashboard

theorem device_mutations_atomic_witness :
    removeDevice (.error ()) defaultDevices "dev-02" = defaultDevices
    ∧ removeDevice (.ok ()) defaultDevices "dev-02"
        = defaultDevices.filter (fun d => !(d.id == "dev-02"))
    ∧ (⟨"dev-01", "Turbine A-11", .monitorIcon⟩ : Device).id ≠ "dev-02"
    ∧ addDevice (.error ()) defaultDevices ⟨"dev-99", "New Pump", none⟩ = defaultDevices
    ∧ addDevice (.ok ⟨"as-07", "Main Pump", some "pump"⟩) defaultDevices
        ⟨"dev-99", "New Pump", none⟩
        = defaultDevices ++ [⟨"as-07", "Main Pump", .activityIcon⟩] :=
  have h := device_mutations_atomic defaultDevices "dev-02" ⟨"as-07", "Main Pump", some "pump"⟩
    ⟨"dev-99", "New Pump", none⟩
  ⟨h.1, h.2.1, h.2.2.1 ⟨"dev-01", "Turbine A-11", .monitorIcon⟩ (by decide), h.2.2.2.1,
   h.2.2.2.2⟩

end Forsee.Dashboard
